import Mathlib

/-!
Shallow embedding of the flow execution engine of `src/backend/main.py`
(ChatFlow AI backend).

Conventions of the embedding:
* MongoDB ObjectIds become `Nat` surrogate keys; timestamps become `Nat`.
* Python dict lookups with `.get` become `Option` fields (a missing key is
  `none`); Python truthiness of a string value (`if reply_text:`,
  `if current_node_id`) is modelled explicitly: `none` and `some ""` are
  falsy.
* The three external round trips (AI completion, WhatsApp delivery) are a
  `Services` record of oracles returning `Except`; a raised Python
  exception is `Except.error`, which propagates exactly as an unhandled
  exception does in the source (no try/except exists in
  `execute_flow_node` or `handle_whatsapp_webhook`).
* The MongoDB collections become explicit lists inside a `DB` record;
  `insert_one` appends, `update_one` rewrites the first matching record,
  `find_one` returns the first matching record in natural order.
* The mocked collaborators of the source (`send_whatsapp_reply`,
  `get_openai_response`) are embedded as `svcMock`, which never fails.
-/

namespace ChatFlow

/-- A `data` payload of a flow node: `node.get("data", {}).get("message")`
and `.get("prompt")` in the source. -/
structure NodeData where
  message : Option String := none
  prompt : Option String := none
deriving Repr, DecidableEq

/-- A flow node as stored in `flow_data.nodes`: a dict whose keys are read
with `.get`, hence every field is optional. -/
structure Node where
  id : Option String := none
  type : Option String := none
  data : Option NodeData := none
deriving Repr, DecidableEq

/-- A flow edge as stored in `flow_data.edges`. -/
structure Edge where
  source : Option String := none
  target : Option String := none
deriving Repr, DecidableEq

/-- `flow_data` of a `ChatbotFlow`: `flow_data.get("nodes", [])` and
`flow_data.get("edges", [])` in the source. -/
structure FlowData where
  nodes : List Node := []
  edges : List Edge := []
deriving Repr, DecidableEq

/-- A contact document (`Contact` pydantic model in the source). -/
structure Contact where
  id : Nat
  name : String
  phone_number : String
  tags : List String := []
  current_flow_node_id : Option String := none
  last_active : Nat
deriving Repr, DecidableEq

/-- A message-log document (`MessageLog` pydantic model in the source). -/
structure MessageLog where
  contact_id : Nat
  from_number : String
  direction : String
  text : String
  timestamp : Nat
deriving Repr, DecidableEq

/-- A flow document (`ChatbotFlow` pydantic model in the source). -/
structure Flow where
  id : Nat
  name : String
  flow_data : FlowData := {}
  is_active : Bool := false
deriving Repr, DecidableEq

/-- The MongoDB database: collections `contacts`, `flows`, `message_logs`,
plus a counter that hands out fresh `_id`s on insertion. -/
structure DB where
  contacts : List Contact := []
  flows : List Flow := []
  message_logs : List MessageLog := []
  nextId : Nat := 0
deriving Repr, DecidableEq

/-- One `{role, content}` entry of the chat history handed to the AI. -/
structure ChatMsg where
  role : String
  content : String
deriving Repr, DecidableEq

/-- The external collaborators (`get_openai_response`,
`send_whatsapp_reply`): oracles that may raise (`Except.error`). -/
structure Services where
  aiComplete : String → List ChatMsg → Except String String
  send : String → String → Except String Unit

/-- The mocked collaborators shipped in `src/backend/main.py`: the send is
a log-and-return stub that never fails, and the AI call always returns the
fixed mocked completion (with `prompt or "..."` for a falsy prompt). -/
def svcMock : Services where
  aiComplete := fun prompt _ =>
    Except.ok ("This is a mocked AI response to your prompt: '"
      ++ (if prompt = "" then "..." else prompt) ++ "'")
  send := fun _ _ => Except.ok ()

/-- A service whose AI completion always raises `e` (delivery untouched);
used to probe the error-propagation behaviour of `execute_flow_node`. -/
def svcFailAI (e : String) : Services where
  aiComplete := fun _ _ => Except.error e
  send := fun _ _ => Except.ok ()

/-- A service whose delivery call always raises `e` (AI is the mock). -/
def svcFailSend (e : String) : Services where
  aiComplete := svcMock.aiComplete
  send := fun _ _ => Except.error e

/-- Stable insertion of a log into a timestamp-descending list, used to
model the `.sort("timestamp", -1)` cursor of `get_chat_history`. -/
def insertDesc (m : MessageLog) : List MessageLog → List MessageLog
  | [] => [m]
  | x :: xs => if m.timestamp ≤ x.timestamp then x :: insertDesc m xs else m :: x :: xs

/-- Sort message logs by timestamp descending (insertion sort). -/
def sortDesc : List MessageLog → List MessageLog
  | [] => []
  | x :: xs => insertDesc x (sortDesc xs)

/-- `get_chat_history`: filter this contact, sort by timestamp
descending, take `limit` (10 at the call site, as in the Python default),
map direction to a role, and reverse to oldest-first. -/
def getChatHistory (logs : List MessageLog) (contactId : Nat) (limit : Nat) : List ChatMsg :=
  let cursor := (sortDesc (logs.filter (fun l => l.contact_id == contactId))).take limit
  (cursor.map (fun l =>
    { role := (if l.direction == "inbound" then "user" else "assistant"),
      content := l.text })).reverse

/-- The `next_node_id` loop of `execute_flow_node`: the target of the
first edge whose `source` equals this node id, else `none`. -/
def computeNextNodeId (nodeId : Option String) (edges : List Edge) : Option String :=
  match edges.find? (fun e => e.source == nodeId) with
  | some e => e.target
  | none => none

/-- `db.contacts.update_one({"_id": cid}, {"$set": {...}})`: rewrite the
first contact with this id, setting `current_flow_node_id` and
`last_active`. -/
def updateContactState (l : List Contact) (cid : Nat) (next : Option String) (now : Nat) : List Contact :=
  match l with
  | [] => []
  | c :: rest =>
    if c.id == cid then { c with current_flow_node_id := next, last_active := now } :: rest
    else c :: updateContactState rest cid next now

/-- What one run of `execute_flow_node` did: the database afterwards, the
computed `reply_text`, and the delivery call that was made (if any). -/
structure ExecOut where
  db : DB
  reply : Option String
  sent : Option (String × String)
deriving Repr, DecidableEq

/-- `execute_flow_node(db, contact, node, flow_data)`.  The reply is the
node message for `textMessage`, the AI completion for `aiResponse`
(history and prompt read exactly as in the source), `none` otherwise.  A
truthy reply is sent and logged outbound; then `next_node_id` is computed
and the contact state update runs unconditionally.  An error of either
oracle propagates (no handler in the source), skipping everything after
it. -/
def executeFlowNode (svc : Services) (db : DB) (contact : Contact) (node : Node)
    (flowData : FlowData) (now : Nat) : Except String ExecOut :=
  let replyE : Except String (Option String) :=
    if node.type == some "textMessage" then
      Except.ok (node.data.getD {}).message
    else if node.type == some "aiResponse" then
      match svc.aiComplete ((node.data.getD {}).prompt.getD "")
          (getChatHistory db.message_logs contact.id 10) with
      | Except.ok t => Except.ok (some t)
      | Except.error e => Except.error e
    else Except.ok none
  match replyE with
  | Except.error e => Except.error e
  | Except.ok reply =>
    let proceed : Except String (Option (String × String) × List MessageLog) :=
      match reply with
      | some t =>
        if t = "" then Except.ok (none, db.message_logs)
        else
          match svc.send contact.phone_number t with
          | Except.ok _ =>
            Except.ok (some (contact.phone_number, t),
              db.message_logs ++ [{ contact_id := contact.id,
                                    from_number := contact.phone_number,
                                    direction := "outbound",
                                    text := t, timestamp := now }])
          | Except.error e => Except.error e
      | none => Except.ok (none, db.message_logs)
    match proceed with
    | Except.error e => Except.error e
    | Except.ok (sent, logs) =>
      Except.ok
        { db := { db with
            message_logs := logs,
            contacts := updateContactState db.contacts contact.id
              (computeNextNodeId node.id flowData.edges) now },
          reply := reply,
          sent := sent }

/-- Python truthiness of the saved position: `if current_node_id` is
false for `None` and for the empty string. -/
def truthyId : Option String → Bool
  | none => false
  | some s => s != ""

/-- Entry-node resolution, lines 414-432 of the webhook handler: look the
saved (truthy) position up among the nodes; on failure fall back to the
first node whose id is not the target of any edge. -/
def resolveEntryNode (currentNodeId : Option String) (flowData : FlowData) : Option Node :=
  let found := if truthyId currentNodeId then
      flowData.nodes.find? (fun n => n.id == currentNodeId)
    else none
  match found with
  | some n => some n
  | none =>
    flowData.nodes.find? (fun n => !((flowData.edges.map (fun e => e.target)).contains n.id))

/-- The contact document inserted for an unknown inbound number. -/
def newWebhookContact (id : Nat) (fromNumber : String) (now : Nat) : Contact :=
  { id := id, name := "WA " ++ fromNumber, phone_number := fromNumber,
    tags := ["new_lead"], current_flow_node_id := none, last_active := now }

/-- One inbound webhook message (`{from, body}`). -/
structure WebhookMessage where
  from_number : String
  text : String
deriving Repr, DecidableEq

/-- The webhook payload: a list of messages. -/
structure WebhookPayload where
  messages : List WebhookMessage
deriving Repr, DecidableEq

/-- The JSON response of the webhook endpoint. -/
structure WebhookResponse where
  status : String
  message : Option String := none
  message_processed : Bool := false
deriving Repr, DecidableEq

/-- What one webhook event did: the database afterwards, the response,
and the delivery call that was made (if any). -/
structure HookOut where
  db : DB
  resp : WebhookResponse
  sent : Option (String × String)
deriving Repr, DecidableEq

/-- `handle_whatsapp_webhook`.  Indexes `payload.messages[0]` unguarded
(an empty list raises IndexError).  Looks the contact up by phone (or
inserts one), always appends an inbound log entry, terminates with "No
active flow." when no flow is active, resolves the entry node (the "No
trigger node found." response when resolution fails), and otherwise
executes the node. -/
def handleWebhook (svc : Services) (db : DB) (payload : WebhookPayload) (now : Nat) :
    Except String HookOut :=
  match payload.messages with
  | [] => Except.error "IndexError"
  | message :: _ =>
    let fromNumber := message.from_number
    let text := message.text
    let lookup := db.contacts.find? (fun c => c.phone_number == fromNumber)
    let db1 : DB :=
      match lookup with
      | some _ => db
      | none => { db with
          contacts := db.contacts ++ [newWebhookContact db.nextId fromNumber now],
          nextId := db.nextId + 1 }
    let contact : Contact :=
      match lookup with
      | some c => c
      | none => newWebhookContact db.nextId fromNumber now
    let db2 : DB := { db1 with
      message_logs := db1.message_logs ++ [{ contact_id := contact.id,
                                             from_number := fromNumber,
                                             direction := "inbound",
                                             text := text,
                                             timestamp := now }] }
    match db2.flows.find? (fun f => f.is_active) with
    | none =>
      Except.ok { db := db2,
                  resp := { status := "ok", message := some "No active flow." },
                  sent := none }
    | some activeFlow =>
      match resolveEntryNode contact.current_flow_node_id activeFlow.flow_data with
      | none =>
        Except.ok { db := db2,
                    resp := { status := "ok", message := some "No trigger node found." },
                    sent := none }
      | some currentNode =>
        match executeFlowNode svc db2 contact currentNode activeFlow.flow_data now with
        | Except.error e => Except.error e
        | Except.ok out =>
          Except.ok { db := out.db,
                      resp := { status := "ok", message_processed := true },
                      sent := out.sent }

/-- Request body of `POST /api/flows` (`ChatbotFlowCreate`). -/
structure FlowCreate where
  name : String
  flow_data : FlowData := {}
  is_active : Bool := false
deriving Repr, DecidableEq

/-- Request body of `PUT /api/flows/{id}` (`ChatbotFlowUpdate`); a `none`
field was not present in the update payload (`exclude_unset`). -/
structure FlowUpdate where
  name : Option String := none
  flow_data : Option FlowData := none
  is_active : Option Bool := none
deriving Repr, DecidableEq

/-- `create_flow`: when the new flow is active, first
`update_many({"is_active": True}, {"$set": {"is_active": False}})`, then
insert the new document. -/
def createFlow (db : DB) (fc : FlowCreate) : DB :=
  let flows := if fc.is_active then
      db.flows.map (fun f => if f.is_active then { f with is_active := false } else f)
    else db.flows
  { db with
    flows := flows ++ [{ id := db.nextId, name := fc.name,
                         flow_data := fc.flow_data, is_active := fc.is_active }],
    nextId := db.nextId + 1 }

/-- Apply the `$set` of a flow update to one document. -/
def applyFlowUpdate (upd : FlowUpdate) (f : Flow) : Flow :=
  { f with name := upd.name.getD f.name,
           flow_data := upd.flow_data.getD f.flow_data,
           is_active := upd.is_active.getD f.is_active }

/-- `db.flows.update_one({"_id": i}, {"$set": update_data})`: rewrite the
first flow with this id. -/
def updateFirstFlow (l : List Flow) (i : Nat) (upd : FlowUpdate) : List Flow :=
  match l with
  | [] => []
  | f :: rest =>
    if f.id == i then applyFlowUpdate upd f :: rest
    else f :: updateFirstFlow rest i upd

/-- `update_flow`: 400 when the update payload is empty; when
`update_data.get("is_active")` is truthy, deactivate every *other* active
flow; then update the target, or 404 when no flow has that id (note the
deactivation has already happened by then, as in the source).  The second
component is the HTTP error detail, `none` on success. -/
def updateFlow (db : DB) (i : Nat) (upd : FlowUpdate) : DB × Option String :=
  if upd.name.isNone && upd.flow_data.isNone && upd.is_active.isNone then
    (db, some "No update data provided.")
  else
    let flows1 := if upd.is_active == some true then
        db.flows.map (fun f =>
          if f.id != i && f.is_active then { f with is_active := false } else f)
      else db.flows
    if flows1.any (fun f => f.id == i) then
      ({ db with flows := updateFirstFlow flows1 i upd }, none)
    else
      ({ db with flows := flows1 }, some "Flow not found")

/-- The invariant of claim C9: at most one flow document is active. -/
def atMostOneActive (flows : List Flow) : Prop :=
  (flows.filter (fun f => f.is_active)).length ≤ 1

instance : DecidablePred atMostOneActive := fun flows =>
  inferInstanceAs (Decidable ((flows.filter (fun f => f.is_active)).length ≤ 1))

/-- Modelled from the spec: `firstOutgoingEdge(sourceId)` of §4.1, "first
edge in declaration order whose `source == sourceId`", stated via
filter-then-head to compare against the loop of `execute_flow_node`. -/
def firstOutgoingEdge (sourceId : Option String) (edges : List Edge) : Option Edge :=
  (edges.filter (fun e => e.source == sourceId)).head?

/-- Modelled from the spec: §4.2, "derived from the `MessageLog`
collaborator sorted by timestamp descending then reversed" (oldest-first),
capped at `limit`, role `user` for inbound and `assistant` otherwise. -/
def chatHistorySpec (logs : List MessageLog) (contactId : Nat) (limit : Nat) : List ChatMsg :=
  (((sortDesc (logs.filter (fun l => l.contact_id == contactId))).take limit).reverse).map
    (fun l => { role := (if l.direction == "inbound" then "user" else "assistant"),
                content := l.text })

/-! Concrete fixtures used by counterexamples and witnesses. -/

/-- A stored contact with no saved flow position. -/
def demoContact : Contact :=
  { id := 1, name := "Demo", phone_number := "+15551234567", last_active := 0 }

/-- An `aiResponse` node. -/
def aiNode : Node :=
  { id := some "n1", type := some "aiResponse", data := some { prompt := some "Greet" } }

/-- A `textMessage` node with a non-empty message. -/
def textNode : Node :=
  { id := some "n1", type := some "textMessage", data := some { message := some "Hi!" } }

/-- A node whose type the executor does not know. -/
def unknownNode : Node := { id := some "n9", type := some "webhookTrigger" }

/-- A one-entry inbound message log for contact 1. -/
def demoLogs : List MessageLog :=
  [{ contact_id := 1, from_number := "+15551234567", direction := "inbound",
     text := "hello", timestamp := 3 }]

/-- A database holding only `demoContact`. -/
def dbDemo : DB := { contacts := [demoContact], nextId := 2 }

/-- A node whose id is the empty string. -/
def emptyIdNode : Node := { id := some "" }

/-- A node with id "A". -/
def nodeA : Node := { id := some "A" }

/-- A graph containing a node with the empty-string id (the target of the
only edge) next to trigger node "A". -/
def fdEmptyId : FlowData :=
  { nodes := [emptyIdNode, nodeA], edges := [{ source := some "A", target := some "" }] }

/-- The two-node graph A → B (both nodes of unknown type). -/
def fdAB : FlowData :=
  { nodes := [{ id := some "A" }, { id := some "B" }],
    edges := [{ source := some "A", target := some "B" }] }

/-- A database whose active flow is the A → B graph and whose only
contact sits at a dead end (`current_flow_node_id = null`). -/
def dbAB : DB :=
  { contacts := [demoContact],
    flows := [{ id := 100, name := "main", flow_data := fdAB, is_active := true }],
    nextId := 2 }

/-- An inbound webhook message from the demo contact. -/
def hiMessage : WebhookMessage := { from_number := "+15551234567", text := "hi" }

/-- A one-node graph whose trigger node has no outgoing edge. -/
def fdSingle : FlowData := { nodes := [{ id := some "n1" }], edges := [] }

/-- The active flow built on `fdSingle`. -/
def singleFlow : Flow := { id := 101, name := "single", flow_data := fdSingle, is_active := true }

/-- A database whose active flow is the one-node graph. -/
def dbSingle : DB := { contacts := [demoContact], flows := [singleFlow], nextId := 2 }

/-- A database with two flows, the first active. -/
def dbFlows : DB :=
  { flows := [{ id := 0, name := "a", is_active := true }, { id := 1, name := "b" }],
    nextId := 2 }

/-- A creation request for an active flow. -/
def fcNew : FlowCreate := { name := "c", is_active := true }

/-- An update request that activates a flow. -/
def updActivate : FlowUpdate := { is_active := some true }

/-- The output of `executeFlowNode svcMock dbDemo demoContact unknownNode
fdAB 7`, spelled out. -/
def execOutW : ExecOut :=
  { db := { contacts := [{ id := 1, name := "Demo", phone_number := "+15551234567",
                           tags := [], current_flow_node_id := none, last_active := 7 }],
            flows := [], message_logs := [], nextId := 2 },
    reply := none, sent := none }

/-! Helper lemmas shared by several claim proofs. -/

theorem find?_eq_head?_filter {A : Type} (p : A → Bool) (l : List A) :
    l.find? p = (l.filter p).head? := by
  induction l with
  | nil => rfl
  | cons x xs ih =>
    rw [List.find?_cons, List.filter_cons]
    cases h : p x
    · simpa using ih
    · simp

theorem exec_ok_db {svc : Services} {db : DB} {c : Contact} {n : Node} {fd : FlowData}
    {now : Nat} {r : ExecOut} (h : executeFlowNode svc db c n fd now = Except.ok r) :
    r.db.contacts = updateContactState db.contacts c.id (computeNextNodeId n.id fd.edges) now
    ∧ r.db.flows = db.flows ∧ r.db.nextId = db.nextId := by
  unfold executeFlowNode at h
  simp only [] at h
  split at h
  · exact absurd h (by simp)
  · split at h
    · exact absurd h (by simp)
    · injection h with h2
      subst h2
      exact ⟨rfl, rfl, rfl⟩

theorem exec_mock_ok (db : DB) (c : Contact) (n : Node) (fd : FlowData) (now : Nat) :
    ∃ r, executeFlowNode svcMock db c n fd now = Except.ok r ∧
      r.db.contacts = updateContactState db.contacts c.id (computeNextNodeId n.id fd.edges) now ∧
      r.db.flows = db.flows := by
  unfold executeFlowNode
  by_cases h1 : n.type == some "textMessage"
  · simp only [h1, if_true]
    cases hm : (n.data.getD {}).message with
    | none => exact ⟨_, rfl, rfl, rfl⟩
    | some t =>
      by_cases ht : t = ""
      · simp only [ht, if_true]
        exact ⟨_, rfl, rfl, rfl⟩
      · simp only [ht, if_false, svcMock]
        exact ⟨_, rfl, rfl, rfl⟩
  · by_cases h2 : n.type == some "aiResponse"
    · simp only [h1, h2, if_true, if_false, Bool.false_eq_true, svcMock]
      exact ⟨_, rfl, rfl, rfl⟩
    · simp only [h1, h2, if_false, Bool.false_eq_true]
      exact ⟨_, rfl, rfl, rfl⟩

theorem find?_updateContactState {l : List Contact} {cid : Nat} {next : Option String}
    {now : Nat} {c₀ : Contact} (h : l.find? (fun x => x.id == cid) = some c₀) :
    (updateContactState l cid next now).find? (fun x => x.id == cid)
      = some { c₀ with current_flow_node_id := next, last_active := now } := by
  induction l with
  | nil => simp [List.find?] at h
  | cons a as ih =>
    rw [List.find?_cons] at h
    cases ha : a.id == cid with
    | true =>
      rw [ha] at h
      simp only at h
      injection h with h2
      subst h2
      simp [updateContactState, ha, List.find?_cons]
    | false =>
      rw [ha] at h
      simp only at h
      simp only [updateContactState, ha, Bool.false_eq_true, if_false, List.find?_cons]
      exact ih h

theorem mem_updateContactState {l : List Contact} {cid : Nat} {next : Option String}
    {now : Nat} : ∀ x ∈ updateContactState l cid next now,
      x ∈ l ∨ x.current_flow_node_id = next := by
  induction l with
  | nil => intro x hx; simp [updateContactState] at hx
  | cons a as ih =>
    intro x hx
    unfold updateContactState at hx
    by_cases ha : (a.id == cid) = true
    · rw [if_pos ha] at hx
      rcases List.mem_cons.mp hx with h | h
      · subst h; exact Or.inr rfl
      · exact Or.inl (List.mem_cons_of_mem _ h)
    · rw [if_neg ha] at hx
      rcases List.mem_cons.mp hx with h | h
      · subst h; exact Or.inl (List.mem_cons_self _ _)
      · rcases ih x h with h2 | h2
        · exact Or.inl (List.mem_cons_of_mem _ h2)
        · exact Or.inr h2

/-! Claim theorems. -/

/-- C7: the executor's `next_node_id` is the target of the first edge in
declaration order whose source equals the node id (`firstOutgoingEdge`),
and `null` when no edge has that source — first match wins when several
edges share the source. -/
theorem C7_next_node_is_first_outgoing_edge_target (n : Node) (fd : FlowData) :
    computeNextNodeId n.id fd.edges
      = (firstOutgoingEdge n.id fd.edges).bind (fun e => e.target) := by
  unfold computeNextNodeId firstOutgoingEdge
  rw [← find?_eq_head?_filter]
  cases hfe : fd.edges.find? (fun e => e.source == n.id) <;> simp [hfe]

/-- C10: the webhook handler indexes `payload.messages[0]` unguarded: an
empty messages list raises an IndexError before any log entry is appended
or any contact is touched (the error result carries no database change),
instead of an acknowledgement. -/
theorem C10_empty_payload_raises (svc : Services) (db : DB) (now : Nat) :
    handleWebhook svc db { messages := [] } now = Except.error "IndexError" := rfl

/-- C6: the chat history equals the spec-side description (that contact's
logs sorted by timestamp descending then reversed, i.e. oldest-first,
mapped to roles), holds at most `limit` entries, and every entry's role is
"user" or "assistant" ("user" exactly for inbound).  The embedding is a
pure function, so the query has no side effects. -/
theorem C6_chat_history_contract (logs : List MessageLog) (cid limit : Nat) :
    getChatHistory logs cid limit = chatHistorySpec logs cid limit
    ∧ (getChatHistory logs cid limit).length ≤ limit
    ∧ ∀ m ∈ getChatHistory logs cid limit, m.role = "user" ∨ m.role = "assistant" := by
  refine ⟨?_, ?_, ?_⟩
  · unfold getChatHistory chatHistorySpec
    rw [List.map_reverse]
  · unfold getChatHistory
    simp [List.length_take]
  · intro m hm
    unfold getChatHistory at hm
    rw [List.mem_reverse] at hm
    obtain ⟨l, hl, rfl⟩ := List.mem_map.mp hm
    cases h : l.direction == "inbound" <;> simp [h]

/-- C6 witness: evaluated on a concrete one-entry log. -/
theorem C6_chat_history_contract_witness :
    ({ role := "user", content := "hello" } : ChatMsg).role = "user"
      ∨ ({ role := "user", content := "hello" } : ChatMsg).role = "assistant" :=
  (C6_chat_history_contract demoLogs 1 10).2.2 { role := "user", content := "hello" }
    (by decide)

/-- C8: a node whose type is neither `textMessage` nor `aiResponse`
produces no reply: the delivery collaborator is not called and no
outbound log entry is appended (the execution still succeeds as a
pass-through). -/
theorem C8_unknown_node_type_is_noop (svc : Services) (db : DB) (c : Contact) (n : Node)
    (fd : FlowData) (now : Nat) (h1 : n.type ≠ some "textMessage")
    (h2 : n.type ≠ some "aiResponse") :
    (executeFlowNode svc db c n fd now).toOption.map
        (fun r => (r.reply, r.sent, r.db.message_logs))
      = some (none, none, db.message_logs) := by
  have e1 : (n.type == some "textMessage") = false := beq_eq_false_iff_ne.mpr h1
  have e2 : (n.type == some "aiResponse") = false := beq_eq_false_iff_ne.mpr h2
  unfold executeFlowNode
  simp only [e1, e2, Bool.false_eq_true, if_false]
  rfl

/-- C8 witness: a `webhookTrigger` node is executed as a no-op. -/
theorem C8_unknown_node_type_is_noop_witness :
    (executeFlowNode svcMock dbDemo demoContact unknownNode fdAB 4).toOption.map
        (fun r => (r.reply, r.sent, r.db.message_logs))
      = some (none, none, dbDemo.message_logs) :=
  C8_unknown_node_type_is_noop svcMock dbDemo demoContact unknownNode fdAB 4
    (by decide) (by decide)

/-- C1 counterexample: with an AI collaborator that raises, executing an
`aiResponse` node propagates the error out of `execute_flow_node` — in
particular no `Except.ok` result carrying the advanced contact state is
produced, contradicting "the failure does not abort node execution: the
state is still persisted". -/
theorem C1_counterexample :
    executeFlowNode (svcFailAI "upstream timeout") dbDemo demoContact aiNode fdAB 9
      = Except.error "upstream timeout" := rfl

/-- C1 (amended): `execute_flow_node` has no handler around the AI and
delivery calls, so a failure of either aborts the node (the error
propagates and the contact state update is skipped); the collaborators
shipped in the repository are mocks that never fail, so in the shipped
code every node execution does persist the advanced state. -/
theorem C1_failure_aborts_execution :
    (∀ (e : String) (db : DB) (c : Contact) (n : Node) (fd : FlowData) (now : Nat),
      n.type = some "aiResponse" →
        executeFlowNode (svcFailAI e) db c n fd now = Except.error e)
    ∧ (∀ (e : String) (db : DB) (c : Contact) (n : Node) (fd : FlowData) (now : Nat)
        (t : String), n.type = some "textMessage" → (n.data.getD {}).message = some t →
        t ≠ "" → executeFlowNode (svcFailSend e) db c n fd now = Except.error e)
    ∧ (∀ (db : DB) (c : Contact) (n : Node) (fd : FlowData) (now : Nat),
        ∃ r, executeFlowNode svcMock db c n fd now = Except.ok r
          ∧ r.db.contacts
              = updateContactState db.contacts c.id (computeNextNodeId n.id fd.edges) now) := by
  refine ⟨?_, ?_, ?_⟩
  · intro e db c n fd now h
    have e1 : (n.type == some "textMessage") = false := by simp [h]
    have e2 : (n.type == some "aiResponse") = true := by simp [h]
    unfold executeFlowNode
    simp only [e1, e2, Bool.false_eq_true, if_false, if_true, svcFailAI]
  · intro e db c n fd now t h hm ht
    have e1 : (n.type == some "textMessage") = true := by simp [h]
    unfold executeFlowNode
    simp only [e1, if_true, hm, ht, if_false, svcFailSend]
  · intro db c n fd now
    obtain ⟨r, hok, hc, -⟩ := exec_mock_ok db c n fd now
    exact ⟨r, hok, hc⟩

/-- C1 witness: the failure branch applied at a concrete `aiResponse`
node. -/
theorem C1_failure_aborts_execution_witness :
    executeFlowNode (svcFailAI "boom") dbDemo demoContact aiNode fdSingle 3
      = Except.error "boom" :=
  C1_failure_aborts_execution.1 "boom" dbDemo demoContact aiNode fdSingle 3 rfl

/-- C2 counterexample: the saved position `some ""` is non-null and names
a node present in the graph (`emptyIdNode`), yet resolution returns the
trigger node `nodeA` instead — `if current_node_id` treats the empty
string as absent. -/
theorem C2_counterexample :
    resolveEntryNode (some "") fdEmptyId = some nodeA
    ∧ emptyIdNode ∈ fdEmptyId.nodes
    ∧ emptyIdNode.id = some ""
    ∧ nodeA ≠ emptyIdNode := by decide

/-- C2 (amended): when the contact's saved id is non-null **and
non-empty** (Python truthiness) and a node with that id exists, resolution
returns the first such node; otherwise (null or empty id, or id absent) it
returns the first node in declaration order whose id is not the target of
any edge; in the fallback case it returns null exactly when every node
(vacuously, also no node at all) has an incoming edge. -/
theorem C2_entry_resolution (cid : Option String) (fd : FlowData) :
    (truthyId cid = true → ∀ nd, fd.nodes.find? (fun n => n.id == cid) = some nd →
        resolveEntryNode cid fd = some nd)
    ∧ ((truthyId cid = false ∨ fd.nodes.find? (fun n => n.id == cid) = none) →
        resolveEntryNode cid fd
          = fd.nodes.find? (fun n => !((fd.edges.map (fun e => e.target)).contains n.id)))
    ∧ (resolveEntryNode cid fd = none ↔
        ((truthyId cid = false ∨ fd.nodes.find? (fun n => n.id == cid) = none)
          ∧ ∀ n ∈ fd.nodes, ((fd.edges.map (fun e => e.target)).contains n.id) = true)) := by
  have part1 : truthyId cid = true → ∀ nd, fd.nodes.find? (fun n => n.id == cid) = some nd →
      resolveEntryNode cid fd = some nd := by
    intro ht nd hnd
    unfold resolveEntryNode
    rw [ht, if_pos rfl, hnd]
  have part2 : (truthyId cid = false ∨ fd.nodes.find? (fun n => n.id == cid) = none) →
      resolveEntryNode cid fd
        = fd.nodes.find? (fun n => !((fd.edges.map (fun e => e.target)).contains n.id)) := by
    intro h
    unfold resolveEntryNode
    rcases h with h | h
    · rw [h]
      rfl
    · cases ht : truthyId cid
      · rfl
      · rw [if_pos rfl, h]
  refine ⟨part1, part2, ?_⟩
  constructor
  · intro h0
    have hfb : truthyId cid = false ∨ fd.nodes.find? (fun n => n.id == cid) = none := by
      cases ht : truthyId cid
      · exact Or.inl rfl
      · cases hn : fd.nodes.find? (fun n => n.id == cid) with
        | none => exact Or.inr rfl
        | some nd =>
          rw [part1 ht nd hn] at h0
          exact absurd h0 (by simp)
    refine ⟨hfb, ?_⟩
    rw [part2 hfb, List.find?_eq_none] at h0
    intro n hn
    have := h0 n hn
    simpa using this
  · rintro ⟨hfb, hall⟩
    rw [part2 hfb, List.find?_eq_none]
    intro n hn
    have := hall n hn
    simp only [this, Bool.not_true]
    simp

/-- C2 witness: a truthy saved position that exists in the A → B graph
resolves to that node. -/
theorem C2_entry_resolution_witness :
    resolveEntryNode (some "A") fdAB = some { id := some "A" } :=
  (C2_entry_resolution (some "A") fdAB).1 rfl { id := some "A" } (by decide)

/-- C4: whenever `execute_flow_node` completes, the contact record is
rewritten with `current_flow_node_id = next_node_id` and
`last_active = now`, with no condition on `next_node_id` — also when it is
null. -/
theorem C4_state_persisted_unconditionally (svc : Services) (db : DB) (c : Contact)
    (n : Node) (fd : FlowData) (now : Nat) (r : ExecOut) (c₀ : Contact)
    (hok : executeFlowNode svc db c n fd now = Except.ok r)
    (hfind : db.contacts.find? (fun x => x.id == c.id) = some c₀) :
    r.db.contacts.find? (fun x => x.id == c.id)
      = some { c₀ with current_flow_node_id := computeNextNodeId n.id fd.edges,
                       last_active := now } := by
  rw [(exec_ok_db hok).1]
  exact find?_updateContactState hfind

/-- C4 witness: a no-reply node at a node with no outgoing edge persists
the null `next_node_id` and refreshes `last_active`. -/
theorem C4_state_persisted_unconditionally_witness :
    execOutW.db.contacts.find? (fun x => x.id == demoContact.id)
      = some { demoContact with current_flow_node_id := none, last_active := 7 } :=
  C4_state_persisted_unconditionally svcMock dbDemo demoContact unknownNode fdSingle 7
    execOutW demoContact rfl rfl

theorem handleWebhook_found (svc : Services) (db : DB) (m : WebhookMessage)
    (rest : List WebhookMessage) (now : Nat) (c : Contact) (fl : Flow) (node : Node)
    (hc : db.contacts.find? (fun x => x.phone_number == m.from_number) = some c)
    (hf : db.flows.find? (fun f => f.is_active) = some fl)
    (hr : resolveEntryNode c.current_flow_node_id fl.flow_data = some node) :
    handleWebhook svc db { messages := m :: rest } now =
      match executeFlowNode svc
          { db with message_logs := db.message_logs ++
              [{ contact_id := c.id, from_number := m.from_number, direction := "inbound",
                 text := m.text, timestamp := now }] }
          c node fl.flow_data now with
      | Except.error e => Except.error e
      | Except.ok out =>
        Except.ok { db := out.db,
                    resp := { status := "ok", message := none, message_processed := true },
                    sent := out.sent } := by
  unfold handleWebhook
  simp only [hc]
  simp only [hf]
  simp only [hr]

/-- C3 counterexample: in the active A → B flow the contact sits at a dead
end (`current_flow_node_id = null`), yet the next inbound event resolves
the trigger node A and persists `current_flow_node_id = "B"` — the contact
does not stay at null. -/
theorem C3_counterexample :
    dbAB.contacts.map (fun x => x.current_flow_node_id) = [none]
    ∧ (handleWebhook svcMock dbAB { messages := [hiMessage] } 5).toOption.map
        (fun out => out.db.contacts.map (fun x => x.current_flow_node_id))
      = some [some "B"] := by decide

/-- C3 (amended): a null saved position makes the next inbound event
re-resolve to the graph's trigger node and persist that node's
`next_node_id`; the contact therefore stays at null indefinitely only
when the trigger node has no outgoing edge — in that case every
subsequent event (flow unchanged) rewrites the position with null again,
and every rewritten contact holds a null position or was already stored. -/
theorem C3_dead_end_stability (db : DB) (m : WebhookMessage) (rest : List WebhookMessage)
    (now : Nat) (c : Contact) (fl : Flow) (trig : Node)
    (hc : db.contacts.find? (fun x => x.phone_number == m.from_number) = some c)
    (hnull : c.current_flow_node_id = none)
    (hf : db.flows.find? (fun f => f.is_active) = some fl)
    (hr : resolveEntryNode none fl.flow_data = some trig)
    (hnoedge : fl.flow_data.edges.find? (fun e => e.source == trig.id) = none) :
    ∃ out, handleWebhook svcMock db { messages := m :: rest } now = Except.ok out
      ∧ out.db.contacts = updateContactState db.contacts c.id none now
      ∧ ∀ x ∈ out.db.contacts, x ∈ db.contacts ∨ x.current_flow_node_id = none := by
  have hr2 : resolveEntryNode c.current_flow_node_id fl.flow_data = some trig := by
    rw [hnull]; exact hr
  rw [handleWebhook_found svcMock db m rest now c fl trig hc hf hr2]
  obtain ⟨r, hok, hcon, -⟩ := exec_mock_ok
    { db with message_logs := db.message_logs ++
        [{ contact_id := c.id, from_number := m.from_number, direction := "inbound",
           text := m.text, timestamp := now }] }
    c trig fl.flow_data now
  rw [hok]
  have hnext : computeNextNodeId trig.id fl.flow_data.edges = none := by
    unfold computeNextNodeId
    rw [hnoedge]
  rw [hnext] at hcon
  refine ⟨_, rfl, hcon, ?_⟩
  rw [hcon]
  exact mem_updateContactState

/-- C3 witness: one-node flow whose trigger has no outgoing edge — the
contact stays at null. -/
theorem C3_dead_end_stability_witness :
    (handleWebhook svcMock dbSingle { messages := [hiMessage] } 4).isOk = true := by
  obtain ⟨out, hok, -, -⟩ := C3_dead_end_stability dbSingle hiMessage [] 4 demoContact
    singleFlow { id := some "n1" } rfl rfl rfl rfl rfl
  rw [hok]
  rfl

/-- C5: when no flow is active, an inbound event appends exactly one log
entry (inbound, carrying the message text), sends nothing, leaves every
stored contact unchanged (a previously unknown sender is inserted with a
null position), leaves the flows unchanged, and answers "No active
flow.". -/
theorem C5_no_active_flow (svc : Services) (db : DB) (m : WebhookMessage)
    (rest : List WebhookMessage) (now : Nat)
    (hflow : db.flows.find? (fun f => f.is_active) = none) :
    ∃ h, handleWebhook svc db { messages := m :: rest } now = Except.ok h
      ∧ h.resp.message = some "No active flow."
      ∧ h.sent = none
      ∧ (∃ entry, h.db.message_logs = db.message_logs ++ [entry]
          ∧ entry.direction = "inbound" ∧ entry.text = m.text)
      ∧ (h.db.contacts = db.contacts
          ∨ ∃ nc, h.db.contacts = db.contacts ++ [nc] ∧ nc.current_flow_node_id = none)
      ∧ h.db.flows = db.flows := by
  unfold handleWebhook
  cases hl : db.contacts.find? (fun x => x.phone_number == m.from_number) with
  | some c =>
    simp only [hl, hflow]
    exact ⟨_, rfl, rfl, rfl, ⟨_, rfl, rfl, rfl⟩, Or.inl rfl, rfl⟩
  | none =>
    simp only [hl, hflow]
    exact ⟨_, rfl, rfl, rfl, ⟨_, rfl, rfl, rfl⟩, Or.inr ⟨_, rfl, rfl⟩, rfl⟩

/-- C5 witness: inbound event against a database with no flows. -/
theorem C5_no_active_flow_witness :
    (handleWebhook svcMock dbDemo { messages := [hiMessage] } 6).isOk = true := by
  obtain ⟨h, hok, -⟩ := C5_no_active_flow svcMock dbDemo hiMessage [] 6 rfl
  rw [hok]
  rfl

theorem filter_active_deactivateAll (l : List Flow) :
    (l.map (fun f => if f.is_active then { f with is_active := false } else f)).filter
      (fun f => f.is_active) = [] := by
  rw [List.filter_eq_nil_iff]
  intro a ha
  obtain ⟨f, hf, rfl⟩ := List.mem_map.mp ha
  by_cases h : f.is_active = true <;> simp [h]

theorem map_id_deactOthers (l : List Flow) (i : Nat) :
    (l.map (fun f => if f.id != i && f.is_active then { f with is_active := false } else f)).map
      (fun f => f.id) = l.map (fun f => f.id) := by
  induction l with
  | nil => rfl
  | cons f rest ih =>
    rw [List.map_cons, List.map_cons, List.map_cons, ih]
    have hid : (if (f.id != i && f.is_active) = true
        then ({ f with is_active := false } : Flow) else f).id = f.id := by
      by_cases h : (f.id != i && f.is_active) = true
      · rw [if_pos h]
      · rw [if_neg h]
    rw [hid]

theorem map_id_updateFirstFlow (l : List Flow) (i : Nat) (upd : FlowUpdate) :
    (updateFirstFlow l i upd).map (fun f => f.id) = l.map (fun f => f.id) := by
  induction l with
  | nil => rfl
  | cons f rest ih =>
    unfold updateFirstFlow
    by_cases h : (f.id == i) = true <;> simp [h, ih, applyFlowUpdate]

theorem deactOthers_active_imp_id (l : List Flow) (i : Nat) :
    ∀ g ∈ l.map (fun f => if f.id != i && f.is_active then { f with is_active := false } else f),
      g.is_active = true → g.id = i := by
  intro g hg ha
  obtain ⟨f, hf, rfl⟩ := List.mem_map.mp hg
  by_cases h : (f.id != i && f.is_active) = true
  · rw [if_pos h] at ha
    simp at ha
  · rw [if_neg h]
    rw [if_neg h] at ha
    have hb : (f.id != i) = false := by
      cases hbn : f.id != i
      · rfl
      · exact absurd (by simp [hbn, ha]) h
    simpa using hb

theorem updateFirstFlow_active_imp_id (l : List Flow) (i : Nat) (upd : FlowUpdate)
    (h : ∀ g ∈ l, g.is_active = true → g.id = i) :
    ∀ g ∈ updateFirstFlow l i upd, g.is_active = true → g.id = i := by
  induction l with
  | nil => intro g hg; simp [updateFirstFlow] at hg
  | cons f rest ih =>
    intro g hg ha
    unfold updateFirstFlow at hg
    by_cases hid : (f.id == i) = true
    · rw [if_pos hid] at hg
      rcases List.mem_cons.mp hg with h1 | h1
      · subst h1
        have hfi : f.id = i := by simpa using hid
        simpa [applyFlowUpdate] using hfi
      · exact h g (List.mem_cons_of_mem _ h1) ha
    · rw [if_neg hid] at hg
      rcases List.mem_cons.mp hg with h1 | h1
      · subst h1
        exact h g (List.mem_cons_self _ _) ha
      · exact ih (fun g hg ha => h g (List.mem_cons_of_mem _ hg) ha) g h1 ha

theorem nodup_active_le_one (l : List Flow) (i : Nat)
    (hnd : (l.map (fun f => f.id)).Nodup)
    (h : ∀ g ∈ l, g.is_active = true → g.id = i) :
    (l.filter (fun f => f.is_active)).length ≤ 1 := by
  induction l with
  | nil => simp
  | cons f rest ih =>
    rw [List.map_cons, List.nodup_cons] at hnd
    rw [List.filter_cons]
    by_cases hf : f.is_active = true
    · rw [if_pos hf]
      have hrest : rest.filter (fun f => f.is_active) = [] := by
        rw [List.filter_eq_nil_iff]
        intro g hg hga
        have hgi : g.id = i := h g (List.mem_cons_of_mem _ hg) hga
        have hfi : f.id = i := h f (List.mem_cons_self _ _) hf
        have hmem : g.id ∈ rest.map (fun f => f.id) := List.mem_map_of_mem _ hg
        rw [hgi, ← hfi] at hmem
        exact hnd.1 hmem
      rw [hrest]
      simp
    · rw [if_neg hf]
      exact ih hnd.2 (fun g hg hga => h g (List.mem_cons_of_mem _ hg) hga)

theorem updateFirstFlow_active_le (l : List Flow) (i : Nat) (upd : FlowUpdate)
    (h : upd.is_active ≠ some true) :
    ((updateFirstFlow l i upd).filter (fun f => f.is_active)).length
      ≤ (l.filter (fun f => f.is_active)).length := by
  induction l with
  | nil => simp [updateFirstFlow]
  | cons f rest ih =>
    unfold updateFirstFlow
    by_cases hid : (f.id == i) = true
    · rw [if_pos hid, List.filter_cons, List.filter_cons]
      cases hua : upd.is_active with
      | none =>
        have heq : (applyFlowUpdate upd f).is_active = f.is_active := by
          simp [applyFlowUpdate, hua]
        rw [heq]
        by_cases hf : f.is_active = true
        · rw [if_pos hf, if_pos hf]
          simp
        · rw [if_neg hf, if_neg hf]
      | some b =>
        have hb : b = false := by
          cases b
          · rfl
          · exact absurd hua h
        subst hb
        have heq : (applyFlowUpdate upd f).is_active = false := by
          simp [applyFlowUpdate, hua]
        by_cases hf : f.is_active = true
        · simp only [heq, Bool.false_eq_true, if_false, if_pos hf, List.length_cons]
          exact Nat.le_succ_of_le (Nat.le_refl _)
        · simp only [heq, Bool.false_eq_true, if_false, if_neg hf]
          exact Nat.le_refl _
    · rw [if_neg hid, List.filter_cons, List.filter_cons]
      by_cases hf : f.is_active = true
      · rw [if_pos hf, if_pos hf]
        simpa using ih
      · rw [if_neg hf, if_neg hf]
        exact ih

/-- C9: both flow creation and flow update preserve "at most one flow is
active" (given the MongoDB uniqueness of `_id`): activating deactivates
every other active flow first. -/
theorem C9_single_active_flow_invariant (db : DB) (fc : FlowCreate) (i : Nat)
    (upd : FlowUpdate) (h1 : atMostOneActive db.flows)
    (hnd : (db.flows.map (fun f => f.id)).Nodup) :
    atMostOneActive (createFlow db fc).flows
    ∧ atMostOneActive ((updateFlow db i upd).1).flows := by
  constructor
  · unfold createFlow atMostOneActive
    by_cases hact : fc.is_active = true
    · simp only [hact, if_true, List.filter_append, filter_active_deactivateAll]
      simp [hact]
    · have hact' : fc.is_active = false := by simpa using hact
      simp only [hact', Bool.false_eq_true, if_false, List.filter_append]
      simpa [hact'] using h1
  · unfold updateFlow
    by_cases hempty : (upd.name.isNone && upd.flow_data.isNone && upd.is_active.isNone) = true
    · rw [if_pos hempty]
      exact h1
    · rw [if_neg hempty]
      by_cases hact : (upd.is_active == some true) = true
      · simp only [hact, if_true]
        by_cases hany : ((db.flows.map (fun f =>
            if f.id != i && f.is_active then { f with is_active := false } else f)).any
              (fun f => f.id == i)) = true
        · rw [if_pos hany]
          refine nodup_active_le_one _ i ?_ ?_
          · rw [map_id_updateFirstFlow, map_id_deactOthers]
            exact hnd
          · exact updateFirstFlow_active_imp_id _ _ _ (deactOthers_active_imp_id db.flows i)
        · rw [if_neg hany]
          refine nodup_active_le_one _ i ?_ (deactOthers_active_imp_id db.flows i)
          rw [map_id_deactOthers]
          exact hnd
      · have hup : upd.is_active ≠ some true := by simpa using hact
        have hact' : (upd.is_active == some true) = false := by simpa using hact
        simp only [hact', Bool.false_eq_true, if_false]
        by_cases hany : (db.flows.any (fun f => f.id == i)) = true
        · rw [if_pos hany]
          exact le_trans (updateFirstFlow_active_le db.flows i upd hup) h1
        · rw [if_neg hany]
          exact h1

/-- C9 witness: creating an active flow next to an existing active one,
and activating flow 1 while flow 0 is active. -/
theorem C9_single_active_flow_invariant_witness :
    atMostOneActive (createFlow dbFlows fcNew).flows
    ∧ atMostOneActive ((updateFlow dbFlows 1 updActivate).1).flows :=
  C9_single_active_flow_invariant dbFlows fcNew 1 updActivate (by decide) (by decide)

end ChatFlow
